import Mathlib

/-!
Verification of the booking/availability logic of the BOOKING-API-DEMO
repository.  The embedding models the Google Apps Script backend functions
in `code.gs` (getAvailableSlots, createBooking, createAdminBlock,
deleteBooking, isAdminUser, doPost) and the second backend variant
(bookAppointment, blockTimeSlot, unblockTimeSlot, doPost) found in the
unnamed source part_003.

Conventions of the embedding:
* Timestamps are integers measured in minutes.  The JavaScript code works
  on `Date` values in milliseconds; every arithmetic step is linear
  (`start + BOOKING_DURATION * 60000` ms becomes `start + 60` minutes), so
  all comparisons are preserved by the unit change.
* A JavaScript falsy check on a request field (`!datetime`,
  missing/empty string) is modelled as `Option.isNone`.
* The Calendar Store is a list of events.  The platform call
  `calendar.getEvents(windowStart, windowEnd)` is modelled, per the
  documented store contract, as returning every stored event whose time
  range overlaps the half-open query window.
* Creating a calendar event appends it to the list with a fresh id
  supplied by the caller; deleting removes the event with the given id.
-/

namespace BookingApi

/-- A time interval, `start` and `stop` in minutes.  `stop` embeds the
JavaScript field `end` (a Lean keyword). -/
structure Interval where
  start : Int
  stop : Int
deriving Repr, DecidableEq

/-- The half-open overlap test used inline at code.gs line 105:
`slotStart < eventEnd && slotEnd > eventStart`. -/
def overlaps (a b : Interval) : Bool :=
  a.start < b.stop && a.stop > b.start

/-- code.gs line 6: fixed booking length in minutes. -/
def BOOKING_DURATION : Int := 60

/-- code.gs line 5: the configured admin identity. -/
def ADMIN_EMAIL : String := "weboutright@gmail.com"

/-- code.gs lines 318-321: `Session.getActiveUser().getEmail() === ADMIN_EMAIL`.
The ambient session email is passed explicitly. -/
def isAdminUser (userEmail : String) : Bool :=
  userEmail == ADMIN_EMAIL

/-- One entry of the slot listing built by getAvailableSlots
(code.gs lines 112-116); `start` is the slot start timestamp
(the `value` field of the JS object) and `available` its tag. -/
structure SlotInfo where
  start : Int
  available : Bool
deriving Repr, DecidableEq

/-- The per-slot availability check of code.gs lines 102-110:
`!events.some(event => slotStart < eventEnd && slotEnd > eventStart)`. -/
def slotIsAvailable (slotStart slotStop : Int) (events : List Interval) : Bool :=
  !(events.any fun ev => overlaps ⟨slotStart, slotStop⟩ ev)

/-- The loop bounds of code.gs line 96: `for (let hour = 9; hour < 17; hour++)`. -/
def businessHours : List Int := [9, 10, 11, 12, 13, 14, 15, 16]

/-- One iteration of the slot loop (code.gs lines 97-116): the candidate
interval is `[day + hour*60, day + (hour+1)*60)` where `day` is midnight of
the target date. -/
def mkSlot (day : Int) (hour : Int) (events : List Interval) : SlotInfo :=
  ⟨day + hour * 60, slotIsAvailable (day + hour * 60) (day + (hour + 1) * 60) events⟩

/-- code.gs lines 92-123: the slot loop accumulating `availableSlots` and
`unavailableSlots` by pushing each constructed slot onto one of the two
lists. -/
def getAvailableSlots (day : Int) (events : List Interval) :
    List SlotInfo × List SlotInfo :=
  businessHours.foldl
    (fun acc hour =>
      let s := mkSlot day hour events
      if s.available then (acc.1 ++ [s], acc.2) else (acc.1, acc.2 ++ [s]))
    ([], [])

/-- The full ordered candidate sequence of the loop, one slot per business
hour, in loop order. -/
def daySlots (day : Int) (events : List Interval) : List SlotInfo :=
  businessHours.map (fun hour => mkSlot day hour events)

/-- A stored calendar event: id, title and time range (minutes). -/
structure CalEvent where
  id : Nat
  title : String
  start : Int
  stop : Int
deriving Repr, DecidableEq

/-- The time range of a stored event. -/
def CalEvent.interval (ev : CalEvent) : Interval := ⟨ev.start, ev.stop⟩

/-- The platform query `calendar.getEvents(ws, we)`: per the Calendar Store
contract it returns all stored events overlapping the half-open window. -/
def getEventsIn (cal : List CalEvent) (ws we : Int) : List CalEvent :=
  cal.filter (fun ev => overlaps ⟨ws, we⟩ ev.interval)

/-- A structured success/failure response (the JSON payloads built by
`createErrorResponse` / success bodies in code.gs and by `jsonResponse`
in part_003). -/
inductive ApiResult where
  | ok (msg : String)
  | err (msg : String)
deriving Repr, DecidableEq

/-- The parsed POST body of code.gs `doPost`: the fields destructured by
the three handlers.  `none` models a missing or falsy field. -/
structure PostData where
  action : Option String
  datetime : Option Int
  clientName : Option String
  clientEmail : Option String
  duration : Option Int
  title : Option String
  eventId : Option Nat
deriving Repr, DecidableEq

/-- code.gs lines 150-198 `createBooking(data)`: reject when a required
field is falsy; otherwise the requested interval is
`[datetime, datetime + BOOKING_DURATION)`; reject when the store reports
any event in that window; otherwise create the event.  The function never
consults the current time.  The returned pair is (response, calendar
after the call). -/
def createBooking (cal : List CalEvent) (nextId : Nat) (data : PostData) :
    ApiResult × List CalEvent :=
  match data.datetime, data.clientName, data.clientEmail with
  | some dt, some name, some _email =>
      let startTime := dt
      let endTime := dt + BOOKING_DURATION
      if (getEventsIn cal startTime endTime).length > 0 then
        (ApiResult.err ("This time slot is no longer available"), cal)
      else
        (ApiResult.ok ("Booking created successfully"),
         cal ++ [⟨nextId, "Booking: " ++ name, startTime, endTime⟩])
  | _, _, _ => (ApiResult.err ("Missing required fields"), cal)

/-- code.gs lines 203-240 `createAdminBlock(data)`: admin-gated; the block
length is `duration || BOOKING_DURATION` (a falsy duration, 0 or missing,
falls back to the default), the title `title || "Admin Block"`. -/
def createAdminBlock (userEmail : String) (cal : List CalEvent) (nextId : Nat)
    (data : PostData) : ApiResult × List CalEvent :=
  if !isAdminUser userEmail then (ApiResult.err ("Access denied"), cal)
  else
    match data.datetime with
    | none => (ApiResult.err ("Date and time are required"), cal)
    | some dt =>
        let blockDuration :=
          match data.duration with
          | some d => if d = 0 then BOOKING_DURATION else d
          | none => BOOKING_DURATION
        (ApiResult.ok ("Time block created successfully"),
         cal ++ [⟨nextId, data.title.getD ("Admin Block"), dt, dt + blockDuration⟩])

/-- code.gs lines 282-313 `deleteBooking(data)`: admin-gated delete by
event id; `getEventById` is modelled by `find?` on the stored ids. -/
def deleteBooking (userEmail : String) (cal : List CalEvent)
    (eventId : Option Nat) : ApiResult × List CalEvent :=
  if !isAdminUser userEmail then (ApiResult.err ("Access denied"), cal)
  else
    match eventId with
    | none => (ApiResult.err ("Event ID is required"), cal)
    | some eid =>
        match cal.find? (fun ev => ev.id == eid) with
        | none => (ApiResult.err ("Event not found"), cal)
        | some _ => (ApiResult.ok ("Booking deleted successfully"),
                     cal.filter (fun ev => !(ev.id == eid)))

/-- code.gs lines 41-60 `doPost(e)`: parse the body (a parse failure is
caught and reported as a server error), then dispatch on `action`; an
unknown or missing action yields the structured invalid-action error. -/
def doPost (userEmail : String) (cal : List CalEvent) (nextId : Nat)
    (body : Option PostData) : ApiResult × List CalEvent :=
  match body with
  | none => (ApiResult.err ("Server error: invalid request body"), cal)
  | some data =>
      match data.action with
      | none => (ApiResult.err ("Invalid action"), cal)
      | some a =>
          if a = "createBooking" then createBooking cal nextId data
          else if a = "createAdminBlock" then createAdminBlock userEmail cal nextId data
          else if a = "deleteBooking" then deleteBooking userEmail cal data.eventId
          else (ApiResult.err ("Invalid action"), cal)

/-- part_003 lines 45-82 `bookAppointment(data)`: reject when any of name,
email, date, time is falsy; `start` is the value of
`new Date(date + "T" + time + ":00")` (parsing is delegated to the
platform); the end is start plus 60 minutes; reject when start is not
strictly in the future; reject when the store reports a conflict;
otherwise create the event. -/
def bookAppointment (now : Int) (cal : List CalEvent) (nextId : Nat)
    (name email date time : Option String) (start : Int) :
    ApiResult × List CalEvent :=
  if name.isNone || email.isNone || date.isNone || time.isNone then
    (ApiResult.err ("All fields required"), cal)
  else
    let endT := start + 60
    if start ≤ now then (ApiResult.err ("Please select a future time"), cal)
    else if (getEventsIn cal start endT).length > 0 then
      (ApiResult.err ("Time slot not available"), cal)
    else
      (ApiResult.ok ("Appointment booked! Check your email for confirmation."),
       cal ++ [⟨nextId, "Appointment: " ++ name.getD (""), start, endT⟩])

/-- part_003 lines 130-148 `blockTimeSlot(data)`: creates the blocking
event unconditionally; the source never reads the session identity, so the
`userEmail` parameter (the ambient caller) is unused. -/
def blockTimeSlot (userEmail : String) (cal : List CalEvent) (nextId : Nat)
    (startT endT : Int) (reason : Option String) : ApiResult × List CalEvent :=
  (ApiResult.ok ("Time slot blocked"),
   cal ++ [⟨nextId, "BLOCKED: " ++ reason.getD ("Unavailable"), startT, endT⟩])

/-- The title test of part_003 lines 119 and 158,
`event.getTitle().startsWith("BLOCKED:")`: the literal is a character-wise
prefix of the title (String.startsWith is exactly this prefix test,
restated on the character data so it is kernel-computable). -/
def startsWithBlocked (t : String) : Bool :=
  "BLOCKED:".data.isPrefixOf t.data

/-- part_003 lines 151-168 `unblockTimeSlot(data)`: delete the event with
the given id only when it exists and its title starts with the literal
prefix used by blockTimeSlot; otherwise report the not-found-or-not-blocked
error.  The source never reads the session identity, so `userEmail` is
unused. -/
def unblockTimeSlot (userEmail : String) (cal : List CalEvent) (eventId : Nat) :
    ApiResult × List CalEvent :=
  match cal.find? (fun ev => ev.id == eventId) with
  | some ev =>
      if startsWithBlocked ev.title then
        (ApiResult.ok ("Slot unblocked"), cal.filter (fun e => !(e.id == eventId)))
      else (ApiResult.err ("Event not found or not blocked"), cal)
  | none => (ApiResult.err ("Event not found or not blocked"), cal)

/-- The occupied set of the §8 scenario: one booking 14:00-15:00. -/
def occupied1400 : List CalEvent := [⟨1, "Booking: X", 840, 900⟩]

/-- Scenario request for 13:00 (minute 780). -/
def request1300 : PostData := ⟨none, some 780, some ("A"), some ("a"), none, none, none⟩

/-- Scenario request for 14:30 (minute 870). -/
def request1430 : PostData := ⟨none, some 870, some ("A"), some ("a"), none, none, none⟩

/-- A calendar holding one admin block and one ordinary booking. -/
def blockedCal : List CalEvent :=
  [⟨1, "BLOCKED: lunch", 540, 600⟩, ⟨2, "Booking: Bob", 600, 660⟩]

theorem overlaps_comm (a b : Interval) : overlaps a b = overlaps b a := by
  simp only [overlaps, gt_iff_lt]
  exact Bool.and_comm _ _

/-- C6: the half-open overlap predicate is symmetric. -/
theorem c6_overlap_symmetry (a b : Interval) : overlaps a b = overlaps b a :=
  overlaps_comm a b

/-- C7: the day-slot computation is a pure, deterministic function of the
target day and occupied set: equal inputs give identical ordered output
(the function has no other inputs and touches no state). -/
theorem c7_deterministic (day₁ day₂ : Int) (e₁ e₂ : List Interval)
    (hd : day₁ = day₂) (he : e₁ = e₂) :
    getAvailableSlots day₁ e₁ = getAvailableSlots day₂ e₂ := by
  rw [hd, he]

theorem c7_deterministic_witness :
    getAvailableSlots 0 [⟨600, 660⟩] = getAvailableSlots 0 [⟨600, 660⟩] :=
  c7_deterministic 0 0 [⟨600, 660⟩] [⟨600, 660⟩] rfl rfl

theorem foldl_slots_eq (day : Int) (events : List Interval) (hs : List Int)
    (a u : List SlotInfo) :
    hs.foldl
      (fun acc hour =>
        let s := mkSlot day hour events
        if s.available then (acc.1 ++ [s], acc.2) else (acc.1, acc.2 ++ [s]))
      (a, u)
    = (a ++ (hs.map (fun hour => mkSlot day hour events)).filter
          (fun s => s.available),
       u ++ (hs.map (fun hour => mkSlot day hour events)).filter
          (fun s => !s.available)) := by
  induction hs generalizing a u with
  | nil => simp
  | cons h t ih =>
    simp only [List.foldl_cons, List.map_cons, List.filter_cons]
    cases hav : (mkSlot day h events).available <;>
      simp [hav, ih, List.append_assoc]

theorem length_filter_add_length_filter_not (p : SlotInfo → Bool)
    (l : List SlotInfo) :
    (l.filter p).length + (l.filter (fun s => !p s)).length = l.length := by
  induction l with
  | nil => rfl
  | cons a t ih =>
    cases h : p a <;> simp [List.filter_cons, h] <;> omega

theorem getAvailableSlots_eq_partition (day : Int) (events : List Interval) :
    getAvailableSlots day events
      = ((daySlots day events).filter (fun s => s.available),
         (daySlots day events).filter (fun s => !s.available)) := by
  unfold getAvailableSlots daySlots
  rw [foldl_slots_eq]
  simp

/-- C1: for every day and occupied set, the availability computation
enumerates exactly the 8 hourly candidates for hours 9..16, in ascending
start order, splits them into the available and unavailable lists by the
availability tag (no candidate omitted), and the two lists partition the
8 candidates. -/
theorem c1_completeness (day : Int) (events : List Interval) :
    (getAvailableSlots day events).1
        = (daySlots day events).filter (fun s => s.available) ∧
    (getAvailableSlots day events).2
        = (daySlots day events).filter (fun s => !s.available) ∧
    (daySlots day events).length = 8 ∧
    (daySlots day events).map (fun s => s.start)
      = [day + 540, day + 600, day + 660, day + 720,
         day + 780, day + 840, day + 900, day + 960] ∧
    List.Chain' (fun x y => x < y) ((daySlots day events).map (fun s => s.start)) ∧
    (getAvailableSlots day events).1.length
        + (getAvailableSlots day events).2.length = 8 := by
  have h1 := getAvailableSlots_eq_partition day events
  have hlen : (daySlots day events).length = 8 := by
    simp [daySlots, businessHours]
  have hmap : (daySlots day events).map (fun s => s.start)
      = [day + 540, day + 600, day + 660, day + 720,
         day + 780, day + 840, day + 900, day + 960] := by
    simp [daySlots, businessHours, mkSlot]
  refine ⟨by rw [h1], by rw [h1], hlen, hmap, ?_, ?_⟩
  · rw [hmap]
    simp [List.chain'_cons]
  · rw [h1]
    have h2 := length_filter_add_length_filter_not (fun s => s.available)
      (daySlots day events)
    simpa [hlen] using h2

/-- C2: a candidate slot is marked available iff no occupied interval
satisfies the half-open overlap test against it; the touching candidate
[10:00,11:00) vs occupied [11:00,12:00) is available, and the partially
contained occupied [10:30,10:45) makes it unavailable. -/
theorem c2_overlap_rule (s e : Int) (events : List Interval) :
    (slotIsAvailable s e events = true ↔
        ∀ ev ∈ events, ¬(s < ev.stop ∧ e > ev.start)) ∧
    slotIsAvailable 600 660 [⟨660, 720⟩] = true ∧
    slotIsAvailable 600 660 [⟨630, 645⟩] = false := by
  refine ⟨?_, by decide, by decide⟩
  simp [slotIsAvailable, overlaps, List.any_eq_true]

theorem getEventsIn_length_pos (cal : List CalEvent) (ws we : Int) :
    (getEventsIn cal ws we).length > 0 ↔
      ∃ ev ∈ cal, overlaps ⟨ws, we⟩ ev.interval = true := by
  simp only [getEventsIn, gt_iff_lt, List.length_pos_iff_exists_mem]
  constructor
  · rintro ⟨ev, hev⟩
    rw [List.mem_filter] at hev
    exact ⟨ev, hev.1, hev.2⟩
  · rintro ⟨ev, hmem, hov⟩
    exact ⟨ev, List.mem_filter.mpr ⟨hmem, hov⟩⟩

/-- C3: for a request carrying the required fields, createBooking rejects
with the slot-taken error iff the requested interval
`[datetime, datetime + BOOKING_DURATION)` overlaps some occupied interval
under the half-open rule; in the §8 scenario with occupied 14:00-15:00 the
13:00 request is accepted and the 14:30 request is rejected as taken. -/
theorem c3_conflict_iff (cal : List CalEvent) (nextId : Nat) (data : PostData)
    (dt : Int) (name email : String)
    (hdt : data.datetime = some dt) (hn : data.clientName = some name)
    (he : data.clientEmail = some email) :
    ((createBooking cal nextId data).1
        = ApiResult.err ("This time slot is no longer available")
      ↔ ∃ ev ∈ cal, overlaps ⟨dt, dt + BOOKING_DURATION⟩ ev.interval = true) ∧
    (createBooking occupied1400 2 request1300).1
        = ApiResult.ok ("Booking created successfully") ∧
    (createBooking occupied1400 2 request1430).1
        = ApiResult.err ("This time slot is no longer available") := by
  refine ⟨?_, by decide, by decide⟩
  simp only [createBooking, hdt, hn, he]
  by_cases hc : (getEventsIn cal dt (dt + BOOKING_DURATION)).length > 0
  · simp only [if_pos hc]
    simpa using (getEventsIn_length_pos cal dt (dt + BOOKING_DURATION)).mp hc
  · simp only [if_neg hc]
    refine iff_of_false (by simp) (fun hex => hc ?_)
    exact (getEventsIn_length_pos cal dt (dt + BOOKING_DURATION)).mpr hex

theorem c3_conflict_iff_witness :
    ((createBooking occupied1400 2 request1430).1
        = ApiResult.err ("This time slot is no longer available")
      ↔ ∃ ev ∈ occupied1400,
          overlaps ⟨870, 870 + BOOKING_DURATION⟩ ev.interval = true) :=
  (c3_conflict_iff occupied1400 2 request1430 870 "A" "a" rfl rfl rfl).1

/-- C4 counterexample: code.gs createBooking performs no past-time check;
with the current time at minute 100, a well-formed request for start 50
(which is ≤ the current time) over an empty calendar creates the event
instead of rejecting with a past-or-present reason. -/
theorem c4_counterexample :
    (50 : Int) ≤ 100 ∧
    createBooking [] 0 ⟨none, some 50, some ("Alice"), some ("alice@example.com"),
        none, none, none⟩
      = (ApiResult.ok ("Booking created successfully"),
         [⟨0, "Booking: Alice", 50, 110⟩]) :=
  ⟨by decide, by decide⟩

/-- C4 (amended): the part_003 bookAppointment rejects every well-formed
request whose start is equal to or earlier than the current time with the
future-time error, independent of the occupied set, and creates no event;
the code.gs createBooking performs no such check. -/
theorem c4_past_reject (now : Int) (cal : List CalEvent) (nextId : Nat)
    (name email date time : String) (start : Int) (h : start ≤ now) :
    bookAppointment now cal nextId (some name) (some email) (some date)
        (some time) start
      = (ApiResult.err ("Please select a future time"), cal) := by
  simp [bookAppointment, h]

theorem c4_past_reject_witness :
    bookAppointment 100 [] 0 (some ("N")) (some ("E")) (some ("D")) (some ("T")) 100
      = (ApiResult.err ("Please select a future time"), []) :=
  c4_past_reject 100 [] 0 "N" "E" "D" "T" 100 (by decide)

/-- C5 counterexample: part_003 blockTimeSlot executes for a non-admin
caller: with caller identity different from ADMIN_EMAIL it creates the
blocking event instead of rejecting with an access-denied result. -/
theorem c5_counterexample :
    ("eve@attacker.example" : String) ≠ ADMIN_EMAIL ∧
    blockTimeSlot ("eve@attacker.example") [] 0 540 600 none
      = (ApiResult.ok ("Time slot blocked"),
         [⟨0, "BLOCKED: Unavailable", 540, 600⟩]) :=
  ⟨by decide, by decide⟩

/-- C5 (amended): code.gs deleteBooking rejects every caller whose identity
differs from ADMIN_EMAIL with the access-denied error and leaves the
calendar unchanged; the part_003 blockTimeSlot and unblockTimeSlot never
consult the caller identity, so they behave identically for admin and
non-admin callers (in particular they do not reject non-admins). -/
theorem c5_admin_gating (u : String) (cal : List CalEvent) (eid : Option Nat)
    (h : u ≠ ADMIN_EMAIL) :
    deleteBooking u cal eid = (ApiResult.err ("Access denied"), cal) ∧
    (∀ n s e r, blockTimeSlot u cal n s e r = blockTimeSlot ADMIN_EMAIL cal n s e r) ∧
    (∀ eid2, unblockTimeSlot u cal eid2 = unblockTimeSlot ADMIN_EMAIL cal eid2) := by
  refine ⟨?_, fun n s e r => rfl, fun eid2 => rfl⟩
  simp [deleteBooking, isAdminUser, h]

theorem c5_admin_gating_witness :
    deleteBooking ("mallory@example.com") blockedCal (some 2)
      = (ApiResult.err ("Access denied"), blockedCal) :=
  (c5_admin_gating ("mallory@example.com") blockedCal (some 2) (by decide)).1

theorem createBooking_err_unchanged (cal : List CalEvent) (n : Nat)
    (data : PostData) (msg : String)
    (h : (createBooking cal n data).1 = ApiResult.err msg) :
    (createBooking cal n data).2 = cal := by
  rcases hdt : data.datetime with _ | dt
  · simp [createBooking, hdt]
  rcases hn : data.clientName with _ | name
  · simp [createBooking, hdt, hn]
  rcases he : data.clientEmail with _ | email
  · simp [createBooking, hdt, hn, he]
  by_cases hc : (getEventsIn cal dt (dt + BOOKING_DURATION)).length > 0
  · simp [createBooking, hdt, hn, he, hc]
  · simp [createBooking, hdt, hn, he, hc] at h

theorem createAdminBlock_err_unchanged (u : String) (cal : List CalEvent)
    (n : Nat) (data : PostData) (msg : String)
    (h : (createAdminBlock u cal n data).1 = ApiResult.err msg) :
    (createAdminBlock u cal n data).2 = cal := by
  by_cases ha : isAdminUser u
  · rcases hdt : data.datetime with _ | dt
    · simp [createAdminBlock, ha, hdt]
    · simp [createAdminBlock, ha, hdt] at h
  · simp [createAdminBlock, ha]

theorem deleteBooking_err_unchanged (u : String) (cal : List CalEvent)
    (eid : Option Nat) (msg : String)
    (h : (deleteBooking u cal eid).1 = ApiResult.err msg) :
    (deleteBooking u cal eid).2 = cal := by
  by_cases ha : isAdminUser u
  · rcases eid with _ | eid
    · simp [deleteBooking, ha]
    · rcases hf : cal.find? (fun ev => ev.id == eid) with _ | ev
      · simp [deleteBooking, ha, hf]
      · simp [deleteBooking, ha, hf] at h
  · simp [deleteBooking, ha]

/-- C8: the code.gs doPost dispatcher always answers with a structured
success/failure result and an error answer leaves the calendar unchanged
(no partial effect); in particular a createBooking request with a missing
required field yields the missing-fields error and creates no event, and
the part_003 bookAppointment likewise rejects a request missing name,
email, date or time with the all-fields-required error and no event. -/
theorem c8_structured_errors (u : String) (cal : List CalEvent) (n : Nat)
    (body : Option PostData) :
    (∀ msg, (doPost u cal n body).1 = ApiResult.err msg →
        (doPost u cal n body).2 = cal) ∧
    (∀ data, body = some data → data.action = some ("createBooking") →
        (data.datetime = none ∨ data.clientName = none ∨ data.clientEmail = none) →
        doPost u cal n body = (ApiResult.err ("Missing required fields"), cal)) ∧
    (∀ (now : Int) (cal2 : List CalEvent) (n2 : Nat)
        (name email date time : Option String) (start : Int),
        (name = none ∨ email = none ∨ date = none ∨ time = none) →
        bookAppointment now cal2 n2 name email date time start
          = (ApiResult.err ("All fields required"), cal2)) := by
  refine ⟨?_, ?_, ?_⟩
  · intro msg h
    rcases body with _ | data
    · rfl
    rcases hact : data.action with _ | a
    · simp [doPost, hact]
    by_cases h1 : a = "createBooking"
    · simp only [doPost, hact, h1, if_pos rfl] at h ⊢
      exact createBooking_err_unchanged cal n data msg h
    by_cases h2 : a = "createAdminBlock"
    · simp only [doPost, hact, if_neg h1, h2, if_pos rfl] at h ⊢
      exact createAdminBlock_err_unchanged u cal n data msg h
    by_cases h3 : a = "deleteBooking"
    · simp only [doPost, hact, if_neg h1, if_neg h2, h3, if_pos rfl] at h ⊢
      exact deleteBooking_err_unchanged u cal data.eventId msg h
    · simp [doPost, hact, h1, h2, h3]
  · intro data hb ha hmiss
    subst hb
    simp only [doPost, ha, if_pos rfl]
    rcases hmiss with hm | hm | hm
    · simp [createBooking, hm]
    · rcases hdt : data.datetime with _ | dt <;> simp [createBooking, hdt, hm]
    · rcases hdt : data.datetime with _ | dt <;>
        rcases hn : data.clientName with _ | nm <;>
          simp [createBooking, hdt, hn, hm]
  · intro now cal2 n2 name email date time start hmiss
    rcases hmiss with hm | hm | hm | hm <;> simp [bookAppointment, hm]

theorem c8_structured_errors_witness :
    doPost ADMIN_EMAIL [] 0
        (some ⟨some ("createBooking"), none, some ("A"), some ("a"), none, none, none⟩)
      = (ApiResult.err ("Missing required fields"), []) :=
  (c8_structured_errors ADMIN_EMAIL [] 0
      (some ⟨some ("createBooking"), none, some ("A"), some ("a"), none, none, none⟩)).2.1
    ⟨some ("createBooking"), none, some ("A"), some ("a"), none, none, none⟩
    rfl rfl (Or.inl rfl)

/-- C9: unblockTimeSlot deletes an event only when the id is found and the
title carries the BLOCKED: prefix; for an id bound to an ordinary booking,
or bound to no event, it answers the not-found-or-not-blocked error and
the calendar is unchanged. -/
theorem c9_unblock_safe (u : String) (cal : List CalEvent) (eid : Nat) :
    (cal.find? (fun ev => ev.id == eid) = none →
        unblockTimeSlot u cal eid
          = (ApiResult.err ("Event not found or not blocked"), cal)) ∧
    (∀ ev, cal.find? (fun e => e.id == eid) = some ev →
        startsWithBlocked ev.title = false →
        unblockTimeSlot u cal eid
          = (ApiResult.err ("Event not found or not blocked"), cal)) ∧
    (∀ ev, cal.find? (fun e => e.id == eid) = some ev →
        startsWithBlocked ev.title = true →
        unblockTimeSlot u cal eid
          = (ApiResult.ok ("Slot unblocked"),
             cal.filter (fun e => !(e.id == eid)))) := by
  refine ⟨?_, ?_, ?_⟩
  · intro hf
    simp [unblockTimeSlot, hf]
  · intro ev hf hb
    simp [unblockTimeSlot, hf, hb]
  · intro ev hf hb
    simp [unblockTimeSlot, hf, hb]

theorem c9_unblock_safe_witness :
    unblockTimeSlot ADMIN_EMAIL blockedCal 2
        = (ApiResult.err ("Event not found or not blocked"), blockedCal) ∧
    unblockTimeSlot ADMIN_EMAIL blockedCal 1
        = (ApiResult.ok ("Slot unblocked"),
           blockedCal.filter (fun e => !(e.id == 1))) :=
  ⟨(c9_unblock_safe ADMIN_EMAIL blockedCal 2).2.1
      ⟨2, "Booking: Bob", 600, 660⟩ (by decide) (by decide),
   (c9_unblock_safe ADMIN_EMAIL blockedCal 1).2.2
      ⟨1, "BLOCKED: lunch", 540, 600⟩ (by decide) (by decide)⟩

/-- C10: every event created by an accepted booking request (code.gs
createBooking or part_003 bookAppointment) ends exactly 60 minutes after
it starts, whatever duration information the request carries, while the
admin block operation can create events of other lengths
(createAdminBlock with duration 90 creates a 90-minute event). -/
theorem c10_fixed_duration :
    (∀ (cal : List CalEvent) (n : Nat) (data : PostData) (r : ApiResult)
        (ev : CalEvent),
        createBooking cal n data = (r, cal ++ [ev]) → ev.stop = ev.start + 60) ∧
    (∀ (now : Int) (cal : List CalEvent) (n : Nat)
        (name email date time : Option String) (start : Int) (r : ApiResult)
        (ev : CalEvent),
        bookAppointment now cal n name email date time start = (r, cal ++ [ev]) →
        ev.stop = ev.start + 60) ∧
    createAdminBlock ADMIN_EMAIL [] 0 ⟨none, some 540, none, none, some 90, none, none⟩
      = (ApiResult.ok ("Time block created successfully"),
         [⟨0, "Admin Block", 540, 630⟩]) := by
  refine ⟨?_, ?_, by decide⟩
  · intro cal n data r ev h
    rcases hdt : data.datetime with _ | dt
    · simp [createBooking, hdt] at h
    rcases hn : data.clientName with _ | name
    · simp [createBooking, hdt, hn] at h
    rcases he : data.clientEmail with _ | email
    · simp [createBooking, hdt, hn, he] at h
    by_cases hc : (getEventsIn cal dt (dt + BOOKING_DURATION)).length > 0
    · simp [createBooking, hdt, hn, he, hc] at h
    · simp only [createBooking, hdt, hn, he, if_neg hc, Prod.mk.injEq] at h
      have h2 : (⟨n, "Booking: " ++ name, dt, dt + BOOKING_DURATION⟩ : CalEvent) = ev := by
        have := h.2
        rwa [List.append_cancel_left_eq, List.cons.injEq, and_iff_left rfl] at this
      rw [← h2]
      rfl
  · intro now cal n name email date time start r ev h
    by_cases hm : (name.isNone || email.isNone || date.isNone || time.isNone) = true
    · simp [bookAppointment, hm] at h
    by_cases hp : start ≤ now
    · simp [bookAppointment, hm, hp] at h
    by_cases hc : (getEventsIn cal start (start + 60)).length > 0
    · simp [bookAppointment, hm, hp, hc] at h
    · simp only [bookAppointment, hm, Bool.false_eq_true, if_false, if_neg hp,
        if_neg hc, Prod.mk.injEq] at h
      have h2 : (⟨n, "Appointment: " ++ name.getD (""), start, start + 60⟩ : CalEvent)
          = ev := by
        have := h.2
        rwa [List.append_cancel_left_eq, List.cons.injEq, and_iff_left rfl] at this
      rw [← h2]

theorem c10_fixed_duration_witness :
    (⟨7, "Booking: Alice", 540, 600⟩ : CalEvent).stop
      = (⟨7, "Booking: Alice", 540, 600⟩ : CalEvent).start + 60 :=
  c10_fixed_duration.1 [] 7
    ⟨none, some 540, some ("Alice"), some ("a@example.com"), some 999, none, none⟩
    (ApiResult.ok ("Booking created successfully"))
    ⟨7, "Booking: Alice", 540, 600⟩ (by decide)

end BookingApi
